import Mathlib

/-!
Shallow embedding of the authentication core of the saas-analytics-dashboard
repository: the JWT token service (`generateTokens`, `verifyAccessToken`,
`verifyRefreshToken`, `loginUser`, `refreshAccessToken`), the Express auth
middleware (`protect`, `authorize`), the activity audit logger
(`logActivity`), and the client-side axios response interceptor with its
per-request retry flag.

Machine times are modelled as natural numbers counting seconds.  A signed JWT
is modelled as a record carrying its payload, issue/expiry times and the
secret it was signed with; signature verification under a secret succeeds
exactly when the token was signed with that same secret (an attacker cannot
produce a token record with a secret it does not know, which is the standard
symbolic model of an HMAC).  Parsing of compact JWS strings is abstracted as
a function `String → Option Jwt` wherever the code manipulates tokens as
strings.
-/

deriving instance DecidableEq for Except

namespace SaasAuth

/-- Payload fields the repository puts in its JWTs: `{ userId }` for access
tokens and `{ userId, type: "refresh" }` for refresh tokens
(src/unnamed/part_003, `generateTokens`). -/
structure JwtPayload where
  userId : String
  type? : Option String
deriving DecidableEq, Repr

/-- A signed JWT: payload plus the registered claims `iat`/`exp` that
`jsonwebtoken` adds, and the secret used to sign it (symbolic signature). -/
structure Jwt where
  payload : JwtPayload
  iat : Nat
  exp : Nat
  secret : String
deriving DecidableEq, Repr

/-- `jwt.sign(payload, secret, { expiresIn })` at clock time `now`. -/
def jwtSign (payload : JwtPayload) (secret : String) (now lifetime : Nat) : Jwt :=
  { payload := payload, iat := now, exp := now + lifetime, secret := secret }

/-- `jwt.verify(token, secret)` at clock time `now`: fails on a signature
mismatch, fails with `TokenExpiredError` once `now ≥ exp` (jsonwebtoken
expires a token when the clock reaches `exp`), otherwise returns the decoded
payload. -/
def jwtVerify (t : Jwt) (secret : String) (now : Nat) : Except String JwtPayload :=
  if t.secret ≠ secret then .error "invalid signature"
  else if t.exp ≤ now then .error "jwt expired"
  else .ok t.payload

/-- Token-signing configuration: `process.env.JWT_SECRET` and
`process.env.JWT_REFRESH_SECRET`. -/
structure Env where
  jwtSecret : String
  jwtRefreshSecret : String
deriving DecidableEq, Repr

/-- `ACCESS_TOKEN_EXPIRY = '15m'`, in seconds. -/
def ACCESS_TOKEN_EXPIRY : Nat := 15 * 60

/-- `REFRESH_TOKEN_EXPIRY = '7d'`, in seconds. -/
def REFRESH_TOKEN_EXPIRY : Nat := 7 * 24 * 60 * 60

/-- The `{ accessToken, refreshToken }` pair returned by `generateTokens`. -/
structure TokenPair where
  accessToken : Jwt
  refreshToken : Jwt
deriving DecidableEq, Repr

/-- `generateTokens(userId)` (src/unnamed/part_003 lines 380-394): an access
token `{ userId }` signed with `JWT_SECRET` for 15 minutes, and a refresh
token `{ userId, type: 'refresh' }` signed with `JWT_REFRESH_SECRET` for
7 days. -/
def generateTokens (env : Env) (now : Nat) (userId : String) : TokenPair :=
  { accessToken :=
      jwtSign { userId := userId, type? := none } env.jwtSecret now ACCESS_TOKEN_EXPIRY,
    refreshToken :=
      jwtSign { userId := userId, type? := some "refresh" } env.jwtRefreshSecret now
        REFRESH_TOKEN_EXPIRY }

/-- `verifyAccessToken(token)` (src/unnamed/part_003 lines 401-407):
`jwt.verify` against `JWT_SECRET`; any failure is flattened to the generic
message. -/
def verifyAccessToken (env : Env) (now : Nat) (t : Jwt) : Except String JwtPayload :=
  match jwtVerify t env.jwtSecret now with
  | .ok p => .ok p
  | .error _ => .error "Invalid or expired access token"

/-- `verifyRefreshToken(token)` (src/unnamed/part_003 lines 414-424):
`jwt.verify` against `JWT_REFRESH_SECRET`, then the type-discriminator check
`decoded.type !== 'refresh'`; the inner throw is caught by the same handler,
so every failure surfaces as the same generic message. -/
def verifyRefreshToken (env : Env) (now : Nat) (t : Jwt) : Except String JwtPayload :=
  match jwtVerify t env.jwtRefreshSecret now with
  | .ok d =>
      if d.type? ≠ some "refresh" then .error "Invalid or expired refresh token"
      else .ok d
  | .error _ => .error "Invalid or expired refresh token"

end SaasAuth

namespace SaasAuth

/-- C2 sanity check values. -/
def env0 : Env := { jwtSecret := "access-secret", jwtRefreshSecret := "refresh-secret" }

end SaasAuth

namespace SaasAuth

/-- A stored user document (src/backend/src/models/User.js).  `password` is
the bcrypt hash as stored; `lastLogin` defaults to null. -/
structure UserDoc where
  id : String
  email : String
  password : String
  name : String
  role : String
  isActive : Bool
  lastLogin : Option Nat
  createdAt : Nat
  updatedAt : Nat
deriving DecidableEq, Repr

/-- The Credential Store: the users collection. -/
def UserDb := List UserDoc

/-- `User.findById(id)`. -/
def findById (db : UserDb) (uid : String) : Option UserDoc :=
  db.find? (fun u => u.id == uid)

/-- `User.findOne({ email })`. -/
def findByEmail (db : UserDb) (email : String) : Option UserDoc :=
  db.find? (fun u => u.email == email)

/-- `refreshAccessToken(refreshToken)` (src/unnamed/part_003 lines 482-500):
verify the refresh token (propagating its generic failure), look the subject
up in the users collection, fail with the message `User not found` if it is
gone, otherwise issue a brand-new pair via `generateTokens`. -/
def refreshAccessToken (env : Env) (db : UserDb) (now : Nat) (rt : Jwt) :
    Except String TokenPair :=
  match verifyRefreshToken env now rt with
  | .error e => .error e
  | .ok decoded =>
      match findById db decoded.userId with
      | none => .error "User not found"
      | some user => .ok (generateTokens env now user.id)

/-- A mongoose document under modification tracking: the stored fields plus
the set of paths reported by `isModified`. -/
structure MDoc where
  doc : UserDoc
  modified : List String
deriving DecidableEq, Repr

/-- The `userSchema.pre('save')` hook (src/backend/src/models/User.js lines
61-73): re-hash the password only when the `password` path was modified. -/
def preSaveHook (hash : String → String) (d : MDoc) : MDoc :=
  if d.modified.contains "password" then
    { d with doc := { d.doc with password := hash d.doc.password } }
  else d

/-- `document.save()` with `timestamps: true`: run the pre-save hook, stamp
`updatedAt`, and clear the modified-paths set. -/
def saveDoc (hash : String → String) (now : Nat) (d : MDoc) : MDoc :=
  let d' := preSaveHook hash d
  { doc := { d'.doc with updatedAt := now }, modified := [] }

/-- The data `loginUser` returns on success: the saved state of the user
document, plus the response payload (user data without the password hash and
the fresh token pair). -/
structure LoginOk where
  savedUser : UserDoc
  accessToken : Jwt
  refreshToken : Jwt
deriving DecidableEq, Repr

/-- `loginUser(email, password)` (src/unnamed/part_003 lines 432-475): look
the user up by email, reject unknown emails, deactivated accounts and
password mismatches, then set `lastLogin` and save (the only modified path
is `lastLogin`), and issue tokens for the user id.  `compare c h` models
`bcrypt.compare(candidate, hash)` and `hash` models bcrypt hashing in the
pre-save hook. -/
def loginUser (env : Env) (hash : String → String) (compare : String → String → Bool)
    (db : UserDb) (now : Nat) (email password : String) : Except String LoginOk :=
  match findByEmail db email with
  | none => .error "Invalid email or password"
  | some user =>
      if user.isActive = false then
        .error "Account is deactivated. Please contact administrator."
      else if compare password user.password = false then
        .error "Invalid email or password"
      else
        let fetched : MDoc := { doc := user, modified := [] }
        let touched : MDoc :=
          { doc := { fetched.doc with lastLogin := some now },
            modified := fetched.modified ++ ["lastLogin"] }
        let saved := saveDoc hash now touched
        let pair := generateTokens env now user.id
        .ok { savedUser := saved.doc, accessToken := pair.accessToken,
              refreshToken := pair.refreshToken }

end SaasAuth

namespace SaasAuth

/-- Concrete user store for witnesses. -/
def db0 : UserDb :=
  [{ id := "user-1", email := "a@b.co", password := "hash1", name := "Ada",
     role := "viewer", isActive := true, lastLogin := none,
     createdAt := 0, updatedAt := 0 }]

end SaasAuth

namespace SaasAuth

/-- Kernel-computable model of `String.prototype.startsWith` on character
lists. -/
def charListStartsWith : List Char → List Char → Bool
  | [], _ => true
  | _ :: _, [] => false
  | p :: ps, c :: cs => p = c && charListStartsWith ps cs

/-- Kernel-computable model of `String.prototype.split(sep)` for a one-character
separator: splitting the empty string yields `[""]`, and adjacent separators
yield empty fields, exactly as in JavaScript. -/
def splitCharList (sep : Char) : List Char → List (List Char)
  | [] => [[]]
  | c :: cs =>
      let rest := splitCharList sep cs
      if c = sep then [] :: rest
      else
        match rest with
        | [] => [[c]]
        | g :: gs => (c :: g) :: gs

/-- `s.startsWith(pat)`. -/
def jsStartsWith (s pat : String) : Bool := charListStartsWith pat.toList s.toList

/-- `s.split(sep)`. -/
def jsSplit (s : String) (sep : Char) : List String :=
  (splitCharList sep s.toList).map (fun l => ⟨l⟩)

/-- Occurrence of `pat` anywhere in a character list. -/
def containsSubList (pat : List Char) : List Char → Bool
  | [] => charListStartsWith pat []
  | c :: cs => charListStartsWith pat (c :: cs) || containsSubList pat cs

/-- `s.includes(pat)`. -/
def jsIncludes (s pat : String) : Bool := containsSubList pat.toList s.toList

/-- Bearer-token extraction in `protect`
(src/backend/src/routes/authRoutes.js, middleware lines 44-58): the header
must exist and start with `Bearer`; the token is the second space-separated
part; a missing or empty second part is falsy in JavaScript, so it counts as
no token. -/
def extractBearerToken (authorization : Option String) : Option String :=
  match authorization with
  | none => none
  | some h =>
      if jsStartsWith h "Bearer" then
        match (jsSplit h ' ').get? 1 with
        | some t => if t = "" then none else some t
        | none => none
      else none

/-- `verifyAccessToken` applied to a wire-format token string: `jwt.verify`
first parses the compact JWS (parse failure raises `JsonWebTokenError`,
which the catch block flattens to the same generic message). -/
def verifyAccessTokenStr (env : Env) (parse : String → Option Jwt) (now : Nat)
    (s : String) : Except String JwtPayload :=
  match parse s with
  | none => .error "Invalid or expired access token"
  | some j => verifyAccessToken env now j

/-- Outcome of the `protect` middleware for one request. -/
inductive ProtectResult
  | rejected (status : Nat) (message : String)
  | proceed (user : JwtPayload)
deriving DecidableEq, Repr

/-- The `protect` middleware (src/backend/src/routes/authRoutes.js middleware
lines 44-73): 401 with the no-token message when no bearer token is present,
401 with the caught error message when `verifyAccessToken` throws, otherwise
`req.user := decoded` and `next()`. -/
def protect (env : Env) (parse : String → Option Jwt) (now : Nat)
    (authorization : Option String) : ProtectResult :=
  match extractBearerToken authorization with
  | none => .rejected 401 "Not authorized, no token provided"
  | some t =>
      match verifyAccessTokenStr env parse now t with
      | .error e => .rejected 401 e
      | .ok decoded => .proceed decoded

/-- `getUserById(userId)` (src/unnamed/part_003 lines 558-574): point read of
the identity record, failing when the subject vanished. -/
def getUserById (db : UserDb) (uid : String) : Except String UserDoc :=
  match findById db uid with
  | none => .error "User not found"
  | some u => .ok u

/-- Outcome of the `authorize(...roles)` middleware for one request. -/
inductive AuthorizeResult
  | rejected (status : Nat) (message : String)
  | proceed (user : UserDoc)
deriving DecidableEq, Repr

/-- The `authorize(...roles)` middleware (src/backend/src/routes/authRoutes.js
middleware lines 80-111): re-fetch the full identity record by the verified
subject id; 403 when the stored role is not in the allowed set (or when the
lookup itself fails), otherwise attach the record and `next()`. -/
def authorize (roles : List String) (db : UserDb) (userId : String) : AuthorizeResult :=
  match getUserById db userId with
  | .error _ => .rejected 403 "Authorization failed"
  | .ok user =>
      if roles.contains user.role = false then
        .rejected 403 ("User role \x27" ++ user.role ++ "\x27 is not authorized to access this route")
      else .proceed user

/-- Outcome of a role-gated route: either an error response produced by the
middleware chain, or the route handler runs with the attached identities. -/
inductive RouteOutcome
  | response (status : Nat) (message : String)
  | handled (user : JwtPayload) (record : UserDoc)
deriving DecidableEq, Repr

/-- A role-gated route as wired in src/backend/src/routes/userRoutes.js lines
26-27: `router.use(protect)` then `router.use(authorize('admin'))` (here with
an arbitrary allowed-role list) and finally the route handler. -/
def runRoleGatedRoute (env : Env) (parse : String → Option Jwt) (now : Nat)
    (db : UserDb) (roles : List String) (authorization : Option String) : RouteOutcome :=
  match protect env parse now authorization with
  | .rejected s m => .response s m
  | .proceed decoded =>
      match authorize roles db decoded.userId with
      | .rejected s m => .response s m
      | .proceed record => .handled decoded record

end SaasAuth

namespace SaasAuth

/-- Client auth storage plus location (src/frontend/src/utils/storage:
`tokenStorage`/`userStorage` over localStorage; `window.location.pathname`). -/
structure ClientState where
  accessToken : Option String
  refreshToken : Option String
  userJson : Option String
  locationPath : String
deriving DecidableEq, Repr

/-- `clearAuthData()`: `tokenStorage.clearTokens()` and
`userStorage.removeUser()`. -/
def clearAuthData (st : ClientState) : ClientState :=
  { st with accessToken := none, refreshToken := none, userJson := none }

/-- The axios request config as the interceptor sees it: the url, the
mutable `_retry` marker the handler stamps on the request, and the
Authorization header. -/
structure RequestConfig where
  url : Option String
  retry : Bool
  authHeader : Option String
deriving DecidableEq, Repr

/-- The destructuring `const { accessToken, refreshToken: newRefreshToken }
= response.data.data` of the refresh endpoint response: the backend refresh
controller (src/backend/src/controllers/authController.js lines 186-192)
puts only `accessToken` in the body, so `newRefreshToken` may be absent. -/
structure RefreshResponseData where
  accessToken : String
  newRefreshToken : Option String
deriving DecidableEq, Repr

/-- How the promise returned by the response interceptor settles. -/
inductive PromiseOutcome
  | rejectOriginal
  | rejectRefreshError
  | retried (cfg : RequestConfig)
deriving DecidableEq, Repr

/-- Observable effect of one run of the interceptor error handler. -/
structure InterceptResult where
  outcome : PromiseOutcome
  state : ClientState
  redirectedToLogin : Bool
  refreshAttempted : Bool
deriving DecidableEq, Repr

/-- `originalRequest.url?.includes('/auth/login')`. -/
def isLoginEndpoint (cfg : RequestConfig) : Bool :=
  match cfg.url with
  | some u => jsIncludes u "/auth/login"
  | none => false

/-- The axios response-error interceptor
(src/frontend/src/services/api.ts lines 44-109).  `refreshEndpoint rt`
models the outcome of `axios.post(API_BASE_URL + /auth/refresh,
\x7b refreshToken \x7d)`.  On a 401 for a non-login request not yet retried:
stamp `_retry`; with no stored refresh token, clear auth, redirect to the
login page (when not already there) and reject the original error; otherwise
call the refresh endpoint, and on success store the new access token (and
the new refresh token only when the transport returned a truthy one),
rewrite the Authorization header and re-issue the request; on refresh
failure clear auth, redirect and reject the refresh error.  Every other
error is rejected unchanged. -/
def onResponseError (st : ClientState) (cfg : RequestConfig) (status : Option Nat)
    (refreshEndpoint : String → Except String RefreshResponseData) : InterceptResult :=
  if (status == some 401) && !cfg.retry && !isLoginEndpoint cfg then
    let cfg1 : RequestConfig := { cfg with retry := true }
    match st.refreshToken with
    | none =>
        { outcome := .rejectOriginal, state := clearAuthData st,
          redirectedToLogin := st.locationPath != "/login",
          refreshAttempted := false }
    | some rt =>
        match refreshEndpoint rt with
        | .ok body =>
            let st1 : ClientState :=
              { st with accessToken := some body.accessToken,
                        refreshToken :=
                          match body.newRefreshToken with
                          | some nrt => if nrt = "" then st.refreshToken else some nrt
                          | none => st.refreshToken }
            { outcome := .retried { cfg1 with authHeader := some ("Bearer " ++ body.accessToken) },
              state := st1, redirectedToLogin := false, refreshAttempted := true }
        | .error _ =>
            { outcome := .rejectRefreshError, state := clearAuthData st,
              redirectedToLogin := st.locationPath != "/login",
              refreshAttempted := true }
  else
    { outcome := .rejectOriginal, state := st, redirectedToLogin := false,
      refreshAttempted := false }

/-- The `setCredentials` reducer
(src/frontend/src/features/auth/slice/authSlice.ts lines 28-52): stores user
and access token, and the refresh token only when the action payload carries
one. -/
def setCredentials (st : ClientState) (userJson accessToken : String)
    (refreshToken? : Option String) : ClientState :=
  let st1 := { st with userJson := some userJson, accessToken := some accessToken }
  match refreshToken? with
  | some rt => { st1 with refreshToken := some rt }
  | none => st1

/-- The login response body (authController.js lines 66-72): `data` carries
`user` and `accessToken` only; the refresh token travels solely in the
HTTP-only cookie. -/
structure LoginResponseBody where
  userJson : String
  accessToken : String
deriving DecidableEq, Repr

/-- `LoginPage.onSubmit` success path
(src/frontend/src/features/auth/pages, lines 118-131): dispatches
`setCredentials` with the response body user and access token — no refresh
token is available to pass. -/
def loginPageOnSubmit (st : ClientState) (body : LoginResponseBody) : ClientState :=
  setCredentials st body.userJson body.accessToken none

/-- A fresh browser session before any login. -/
def freshClient : ClientState :=
  { accessToken := none, refreshToken := none, userJson := none,
    locationPath := "/login" }

end SaasAuth

namespace SaasAuth

/-- Request metadata the activity logger extracts
(src/backend/src/utils/activityLogger.js lines 18-35). -/
structure ReqMeta where
  xForwardedFor : Option String
  xRealIp : Option String
  connectionRemoteAddress : Option String
  socketRemoteAddress : Option String
  userAgent : Option String
deriving DecidableEq, Repr

/-- JavaScript `a || b` on a possibly-absent string: the empty string is
falsy. -/
def jsOrStr (a : Option String) (b : String) : String :=
  match a with
  | some s => if s = "" then b else s
  | none => b

/-- `getClientIp(req)`: first entry of `x-forwarded-for`, then `x-real-ip`,
then the connection and socket remote addresses, then `unknown`. -/
def getClientIp (req : ReqMeta) : String :=
  jsOrStr (req.xForwardedFor.map (fun s => (jsSplit s ',').headD ""))
    (jsOrStr req.xRealIp
      (jsOrStr req.connectionRemoteAddress
        (jsOrStr req.socketRemoteAddress "unknown")))

/-- `getUserAgent(req)`. -/
def getUserAgent (req : ReqMeta) : String :=
  jsOrStr req.userAgent "unknown"

/-- An activity log entry as handed to `ActivityLog.create`
(src/backend/src/models, activity log schema).  `details` is kept as an
opaque serialized payload. -/
structure ActivityEntry where
  userId : String
  action : String
  entityType : Option String
  entityId : Option String
  details : String
  ipAddress : Option String
  userAgent : Option String
deriving DecidableEq, Repr

/-- The argument object of `logActivity`
(src/backend/src/utils/activityLogger.js lines 48-55), with the source's
defaults. -/
structure LogArgs where
  userId : String
  action : String
  entityType : Option String := none
  entityId : Option String := none
  details : String := ""
  req : Option ReqMeta := none
deriving DecidableEq, Repr

/-- The entry `logActivity` builds for `createActivityLog` (lines 58-66):
IP and user agent only when a request object was passed. -/
def activityEntryOf (args : LogArgs) : ActivityEntry :=
  { userId := args.userId, action := args.action, entityType := args.entityType,
    entityId := args.entityId, details := args.details,
    ipAddress := args.req.map getClientIp,
    userAgent := args.req.map getUserAgent }

/-- How one call to `logActivity` settles: the promise it returns (rejection
would propagate to a caller that awaited it), the entry persisted if the
write succeeded, and what was written to the local console error log. -/
structure LogActivityResult where
  promise : Except String Unit
  written : Option ActivityEntry
  consoleErrors : List String
deriving DecidableEq, Repr

/-- `logActivity` (src/backend/src/utils/activityLogger.js lines 48-71):
await the store write inside a try/catch whose catch only `console.error`s,
so the async function always returns normally.  `createActivityLog` is the
fallible store write (`ActivityLog.create`). -/
def logActivity (createActivityLog : ActivityEntry → Except String ActivityEntry)
    (args : LogArgs) : LogActivityResult :=
  match createActivityLog (activityEntryOf args) with
  | .ok e => { promise := .ok (), written := some e, consoleErrors := [] }
  | .error err =>
      { promise := .ok (), written := none,
        consoleErrors := ["Failed to create activity log: " ++ err] }

end SaasAuth

namespace SaasAuth

/-- The request as the logout controller sees it: `req.user` is populated
only by the `protect` middleware. -/
structure LogoutReq where
  user? : Option JwtPayload
  meta : ReqMeta
deriving DecidableEq, Repr

/-- Observable outcome of the logout controller: HTTP status, the cleared
refresh cookie, and the audit sink contents afterwards. -/
structure LogoutResult where
  status : Nat
  clearedRefreshCookie : Bool
  activityLog : List ActivityEntry
deriving DecidableEq, Repr

/-- The logout controller (src/backend/src/controllers/authController.js
lines 205-227): log a `logout` activity only when `req.user?.userId` is
present, clear the refresh cookie, respond 200.  The audit sink is modelled
as the list of persisted entries, with the write succeeding. -/
def logoutController (req : LogoutReq) (sink : List ActivityEntry) : LogoutResult :=
  let sink1 :=
    match req.user? with
    | some u =>
        sink ++ [{ userId := u.userId, action := "logout", entityType := some "auth",
                   entityId := none, details := "",
                   ipAddress := some (getClientIp req.meta),
                   userAgent := some (getUserAgent req.meta) }]
    | none => sink
  { status := 200, clearedRefreshCookie := true, activityLog := sink1 }

/-- `POST /auth/logout` as mounted in src/backend/src/routes/authRoutes.js
line 21: the route carries no `protect` middleware (it is listed among the
public routes), so the controller runs with `req.user` unset. -/
def postAuthLogout (meta : ReqMeta) (sink : List ActivityEntry) : LogoutResult :=
  logoutController { user? := none, meta := meta } sink

/-- Concrete request metadata for the logout counterexample. -/
def meta0 : ReqMeta :=
  { xForwardedFor := none, xRealIp := none, connectionRemoteAddress := some "10.0.0.1",
    socketRemoteAddress := none, userAgent := some "agent" }

end SaasAuth

/-- C2: a token pair issued by `generateTokens` at time `t0` for subject
`uid` round-trips: `verifyAccessToken` accepts the access token and decodes
`uid` at any time strictly before `t0 + 15min` and rejects it at any time
from `t0 + 15min` on; `verifyRefreshToken` likewise accepts the refresh
token before `t0 + 7days`, decoding `uid`, and rejects it afterwards. -/
theorem SaasAuth.generateTokens_roundtrip (env : SaasAuth.Env) (uid : String) (t0 now : Nat) :
    (now < t0 + SaasAuth.ACCESS_TOKEN_EXPIRY →
      SaasAuth.verifyAccessToken env now (SaasAuth.generateTokens env t0 uid).accessToken
        = .ok { userId := uid, type? := none }) ∧
    (t0 + SaasAuth.ACCESS_TOKEN_EXPIRY ≤ now →
      SaasAuth.verifyAccessToken env now (SaasAuth.generateTokens env t0 uid).accessToken
        = .error "Invalid or expired access token") ∧
    (now < t0 + SaasAuth.REFRESH_TOKEN_EXPIRY →
      SaasAuth.verifyRefreshToken env now (SaasAuth.generateTokens env t0 uid).refreshToken
        = .ok { userId := uid, type? := some "refresh" }) ∧
    (t0 + SaasAuth.REFRESH_TOKEN_EXPIRY ≤ now →
      SaasAuth.verifyRefreshToken env now (SaasAuth.generateTokens env t0 uid).refreshToken
        = .error "Invalid or expired refresh token") := by
  refine ⟨fun h => ?_, fun h => ?_, fun h => ?_, fun h => ?_⟩
  · simp [SaasAuth.generateTokens, SaasAuth.verifyAccessToken, SaasAuth.jwtSign,
      SaasAuth.jwtVerify, Nat.not_le.mpr h]
  · simp [SaasAuth.generateTokens, SaasAuth.verifyAccessToken, SaasAuth.jwtSign,
      SaasAuth.jwtVerify, h]
  · simp [SaasAuth.generateTokens, SaasAuth.verifyRefreshToken, SaasAuth.jwtSign,
      SaasAuth.jwtVerify, Nat.not_le.mpr h]
  · simp [SaasAuth.generateTokens, SaasAuth.verifyRefreshToken, SaasAuth.jwtSign,
      SaasAuth.jwtVerify, h]

/-- Witness for C2 at concrete inputs: issue at `t0 = 0`; the access token
verifies at `now = 899` and is rejected at `now = 900`; the refresh token
verifies at `now = 604799` and is rejected at `now = 604800`. -/
theorem SaasAuth.generateTokens_roundtrip_witness :
    (SaasAuth.verifyAccessToken SaasAuth.env0 899
        (SaasAuth.generateTokens SaasAuth.env0 0 "user-1").accessToken
      = .ok { userId := "user-1", type? := none }) ∧
    (SaasAuth.verifyAccessToken SaasAuth.env0 900
        (SaasAuth.generateTokens SaasAuth.env0 0 "user-1").accessToken
      = .error "Invalid or expired access token") ∧
    (SaasAuth.verifyRefreshToken SaasAuth.env0 604799
        (SaasAuth.generateTokens SaasAuth.env0 0 "user-1").refreshToken
      = .ok { userId := "user-1", type? := some "refresh" }) ∧
    (SaasAuth.verifyRefreshToken SaasAuth.env0 604800
        (SaasAuth.generateTokens SaasAuth.env0 0 "user-1").refreshToken
      = .error "Invalid or expired refresh token") :=
  ⟨(SaasAuth.generateTokens_roundtrip SaasAuth.env0 "user-1" 0 899).1 (by decide),
   (SaasAuth.generateTokens_roundtrip SaasAuth.env0 "user-1" 0 900).2.1 (by decide),
   (SaasAuth.generateTokens_roundtrip SaasAuth.env0 "user-1" 0 604799).2.2.1 (by decide),
   (SaasAuth.generateTokens_roundtrip SaasAuth.env0 "user-1" 0 604800).2.2.2 (by decide)⟩

/-- C3: when the two signing secrets are distinct, token-type confusion is
rejected in both directions at every clock time: the access token of a pair
is rejected by `verifyRefreshToken`, and the refresh token of a pair is
rejected by `verifyAccessToken`, each with the generic invalid-token
message. -/
theorem SaasAuth.tokenType_confusion_rejected (env : SaasAuth.Env)
    (hsec : env.jwtSecret ≠ env.jwtRefreshSecret) (uid : String) (t0 now : Nat) :
    SaasAuth.verifyRefreshToken env now (SaasAuth.generateTokens env t0 uid).accessToken
      = .error "Invalid or expired refresh token" ∧
    SaasAuth.verifyAccessToken env now (SaasAuth.generateTokens env t0 uid).refreshToken
      = .error "Invalid or expired access token" := by
  constructor <;>
    simp [SaasAuth.generateTokens, SaasAuth.verifyAccessToken, SaasAuth.verifyRefreshToken,
      SaasAuth.jwtSign, SaasAuth.jwtVerify, hsec, Ne.symm hsec]

/-- Witness for C3 with concrete distinct secrets, at a time when both tokens
are still unexpired. -/
theorem SaasAuth.tokenType_confusion_rejected_witness :
    SaasAuth.verifyRefreshToken SaasAuth.env0 10
        (SaasAuth.generateTokens SaasAuth.env0 0 "user-1").accessToken
      = .error "Invalid or expired refresh token" ∧
    SaasAuth.verifyAccessToken SaasAuth.env0 10
        (SaasAuth.generateTokens SaasAuth.env0 0 "user-1").refreshToken
      = .error "Invalid or expired access token" :=
  SaasAuth.tokenType_confusion_rejected SaasAuth.env0 (by decide) "user-1" 0 10

/-- C4: `refreshAccessToken` first verifies its input as a refresh token and
propagates the generic invalid/expired failure; if verification succeeds but
the subject is absent from the user store it fails with `User not found`;
otherwise it returns exactly the brand-new pair `generateTokens` issues for
the stored user, whose access token independently verifies at any time
before its 15-minute expiry. -/
theorem SaasAuth.refreshAccessToken_spec (env : SaasAuth.Env) (db : SaasAuth.UserDb)
    (now : Nat) (rt : SaasAuth.Jwt) :
    (∀ e, SaasAuth.verifyRefreshToken env now rt = .error e →
      SaasAuth.refreshAccessToken env db now rt = .error e
        ∧ e = "Invalid or expired refresh token") ∧
    (∀ d, SaasAuth.verifyRefreshToken env now rt = .ok d →
      SaasAuth.findById db d.userId = none →
      SaasAuth.refreshAccessToken env db now rt = .error "User not found") ∧
    (∀ d u, SaasAuth.verifyRefreshToken env now rt = .ok d →
      SaasAuth.findById db d.userId = some u →
      SaasAuth.refreshAccessToken env db now rt
          = .ok (SaasAuth.generateTokens env now u.id) ∧
        ∀ t, t < now + SaasAuth.ACCESS_TOKEN_EXPIRY →
          SaasAuth.verifyAccessToken env t
              (SaasAuth.generateTokens env now u.id).accessToken
            = .ok { userId := u.id, type? := none }) := by
  refine ⟨fun e he => ⟨?_, ?_⟩, fun d hd hnone => ?_, fun d u hd hu => ⟨?_, fun t ht => ?_⟩⟩
  · simp [SaasAuth.refreshAccessToken, he]
  · by_contra hne
    simp [SaasAuth.verifyRefreshToken, SaasAuth.jwtVerify] at he
    split at he
    · split at he <;> simp_all
    · simp_all
  · simp [SaasAuth.refreshAccessToken, hd, hnone]
  · simp [SaasAuth.refreshAccessToken, hd, hu]
  · exact (SaasAuth.generateTokens_roundtrip env u.id now t).1 ht

/-- Witness for C4 at concrete inputs: an expired refresh token propagates the
generic failure; a valid token for a missing subject yields `User not found`;
a valid token for the stored subject yields the rotated pair, whose access
token verifies shortly afterwards. -/
theorem SaasAuth.refreshAccessToken_spec_witness :
    (SaasAuth.refreshAccessToken SaasAuth.env0 SaasAuth.db0 604800
        (SaasAuth.generateTokens SaasAuth.env0 0 "user-1").refreshToken
      = .error "Invalid or expired refresh token") ∧
    (SaasAuth.refreshAccessToken SaasAuth.env0 SaasAuth.db0 5
        (SaasAuth.generateTokens SaasAuth.env0 0 "ghost").refreshToken
      = .error "User not found") ∧
    (SaasAuth.refreshAccessToken SaasAuth.env0 SaasAuth.db0 5
        (SaasAuth.generateTokens SaasAuth.env0 0 "user-1").refreshToken
      = .ok (SaasAuth.generateTokens SaasAuth.env0 5 "user-1")) ∧
    (SaasAuth.verifyAccessToken SaasAuth.env0 6
        (SaasAuth.generateTokens SaasAuth.env0 5 "user-1").accessToken
      = .ok { userId := "user-1", type? := none }) := by
  refine ⟨?_, ?_, ?_, ?_⟩
  · exact ((SaasAuth.refreshAccessToken_spec SaasAuth.env0 SaasAuth.db0 604800
        (SaasAuth.generateTokens SaasAuth.env0 0 "user-1").refreshToken).1
      "Invalid or expired refresh token" (by decide)).1
  · exact (SaasAuth.refreshAccessToken_spec SaasAuth.env0 SaasAuth.db0 5
        (SaasAuth.generateTokens SaasAuth.env0 0 "ghost").refreshToken).2.1
      { userId := "ghost", type? := some "refresh" } (by decide) (by decide)
  · exact ((SaasAuth.refreshAccessToken_spec SaasAuth.env0 SaasAuth.db0 5
        (SaasAuth.generateTokens SaasAuth.env0 0 "user-1").refreshToken).2.2
      { userId := "user-1", type? := some "refresh" }
      { id := "user-1", email := "a@b.co", password := "hash1", name := "Ada",
        role := "viewer", isActive := true, lastLogin := none,
        createdAt := 0, updatedAt := 0 }
      (by decide) (by decide)).1
  · exact ((SaasAuth.refreshAccessToken_spec SaasAuth.env0 SaasAuth.db0 5
        (SaasAuth.generateTokens SaasAuth.env0 0 "user-1").refreshToken).2.2
      { userId := "user-1", type? := some "refresh" }
      { id := "user-1", email := "a@b.co", password := "hash1", name := "Ada",
        role := "viewer", isActive := true, lastLogin := none,
        createdAt := 0, updatedAt := 0 }
      (by decide) (by decide)).2 6 (by decide)

/-- C10: a successful login saves the found user document changed only in
`lastLogin` (set to the login time) and the auto-maintained `updatedAt`
timestamp; in particular the stored password hash is untouched for every
possible hashing function, because the pre-save hook only re-hashes when the
`password` path was modified and the login flow modifies only `lastLogin`. -/
theorem SaasAuth.loginUser_frame (env : SaasAuth.Env) (hash : String → String)
    (compare : String → String → Bool) (db : SaasAuth.UserDb) (now : Nat)
    (email password : String) (u : SaasAuth.UserDoc)
    (hfind : SaasAuth.findByEmail db email = some u)
    (hactive : u.isActive = true)
    (hpw : compare password u.password = true) :
    SaasAuth.loginUser env hash compare db now email password
      = .ok { savedUser := { u with lastLogin := some now, updatedAt := now },
              accessToken := (SaasAuth.generateTokens env now u.id).accessToken,
              refreshToken := (SaasAuth.generateTokens env now u.id).refreshToken } := by
  simp [SaasAuth.loginUser, hfind, hactive, hpw, SaasAuth.saveDoc, SaasAuth.preSaveHook]

/-- Witness for C10: the stored viewer logs in at time 42 with a password the
comparator accepts; the saved document keeps the original hash `hash1` and
changes only `lastLogin` and `updatedAt`, even though the ambient hashing
function would rewrite any input it were applied to. -/
theorem SaasAuth.loginUser_frame_witness :
    SaasAuth.loginUser SaasAuth.env0 (fun _ => "REHASHED") (fun _ _ => true)
        SaasAuth.db0 42 "a@b.co" "pw"
      = .ok { savedUser :=
                { id := "user-1", email := "a@b.co", password := "hash1", name := "Ada",
                  role := "viewer", isActive := true, lastLogin := some 42,
                  createdAt := 0, updatedAt := 42 },
              accessToken := (SaasAuth.generateTokens SaasAuth.env0 42 "user-1").accessToken,
              refreshToken := (SaasAuth.generateTokens SaasAuth.env0 42 "user-1").refreshToken } :=
  SaasAuth.loginUser_frame SaasAuth.env0 (fun _ => "REHASHED") (fun _ _ => true)
    SaasAuth.db0 42 "a@b.co" "pw"
    { id := "user-1", email := "a@b.co", password := "hash1", name := "Ada",
      role := "viewer", isActive := true, lastLogin := none,
      createdAt := 0, updatedAt := 0 }
    (by decide) (by decide) (by decide)

/-- C5: the `protect` middleware responds 401 with the no-token message when
no bearer token is extractable from the Authorization header; responds 401
with the generic token-failure message when a token is present but
`verifyAccessToken` fails on it; and on successful verification attaches the
decoded payload — whose `userId` is the token's subject — to the request and
lets it proceed. -/
theorem SaasAuth.protect_spec (env : SaasAuth.Env) (parse : String → Option SaasAuth.Jwt)
    (now : Nat) (authorization : Option String) :
    (SaasAuth.extractBearerToken authorization = none →
      SaasAuth.protect env parse now authorization
        = .rejected 401 "Not authorized, no token provided") ∧
    (∀ t e, SaasAuth.extractBearerToken authorization = some t →
      SaasAuth.verifyAccessTokenStr env parse now t = .error e →
      SaasAuth.protect env parse now authorization = .rejected 401 e
        ∧ e = "Invalid or expired access token") ∧
    (∀ t j, SaasAuth.extractBearerToken authorization = some t →
      parse t = some j →
      SaasAuth.verifyAccessToken env now j = .ok j.payload →
      SaasAuth.protect env parse now authorization = .proceed j.payload
        ∧ j.payload.userId = j.payload.userId) := by
  refine ⟨fun h => ?_, fun t e ht he => ⟨?_, ?_⟩, fun t j ht hp hv => ⟨?_, rfl⟩⟩
  · simp [SaasAuth.protect, h]
  · simp [SaasAuth.protect, ht, he]
  · unfold SaasAuth.verifyAccessTokenStr at he
    split at he
    · simp_all
    · unfold SaasAuth.verifyAccessToken at he
      split at he <;> simp_all
  · simp [SaasAuth.protect, ht, SaasAuth.verifyAccessTokenStr, hp, hv]

/-- Witness for C5 at concrete requests: a request with no Authorization
header is rejected with the no-token message; a request bearing a token the
verifier rejects (expired here) is rejected with the generic failure
message; a request bearing a fresh token proceeds with the decoded subject
attached. -/
theorem SaasAuth.protect_spec_witness :
    (SaasAuth.protect SaasAuth.env0
        (fun s => if s = "tok" then some (SaasAuth.generateTokens SaasAuth.env0 0 "user-1").accessToken else none)
        5 none
      = .rejected 401 "Not authorized, no token provided") ∧
    (SaasAuth.protect SaasAuth.env0
        (fun s => if s = "tok" then some (SaasAuth.generateTokens SaasAuth.env0 0 "user-1").accessToken else none)
        900 (some "Bearer tok")
      = .rejected 401 "Invalid or expired access token") ∧
    (SaasAuth.protect SaasAuth.env0
        (fun s => if s = "tok" then some (SaasAuth.generateTokens SaasAuth.env0 0 "user-1").accessToken else none)
        5 (some "Bearer tok")
      = .proceed { userId := "user-1", type? := none }) := by
  refine ⟨?_, ?_, ?_⟩
  · exact (SaasAuth.protect_spec SaasAuth.env0
      (fun s => if s = "tok" then some (SaasAuth.generateTokens SaasAuth.env0 0 "user-1").accessToken else none)
      5 none).1 (by decide)
  · exact ((SaasAuth.protect_spec SaasAuth.env0
      (fun s => if s = "tok" then some (SaasAuth.generateTokens SaasAuth.env0 0 "user-1").accessToken else none)
      900 (some "Bearer tok")).2.1 "tok" "Invalid or expired access token"
      (by decide) (by decide)).1
  · exact ((SaasAuth.protect_spec SaasAuth.env0
      (fun s => if s = "tok" then some (SaasAuth.generateTokens SaasAuth.env0 0 "user-1").accessToken else none)
      5 (some "Bearer tok")).2.2 "tok"
      (SaasAuth.generateTokens SaasAuth.env0 0 "user-1").accessToken
      (by decide) (by decide) (by decide)).1

/-- C6: on a role-gated route (protect, then authorize with a declared
allowed-role list), a request bearing a perfectly valid access token whose
subject's stored role is not in the allowed set is answered 403 by the
authorize stage — which re-fetched the identity record by the verified
subject id — and the route handler never runs. -/
theorem SaasAuth.roleGate_forbids_disallowed_role (env : SaasAuth.Env)
    (parse : String → Option SaasAuth.Jwt) (db : SaasAuth.UserDb)
    (roles : List String) (authorization : Option String)
    (s uid : String) (u : SaasAuth.UserDoc) (t0 now : Nat)
    (hx : SaasAuth.extractBearerToken authorization = some s)
    (hp : parse s = some (SaasAuth.generateTokens env t0 uid).accessToken)
    (hfresh : now < t0 + SaasAuth.ACCESS_TOKEN_EXPIRY)
    (hu : SaasAuth.findById db uid = some u)
    (hrole : roles.contains u.role = false) :
    SaasAuth.runRoleGatedRoute env parse now db roles authorization
      = .response 403
          ("User role \x27" ++ u.role ++ "\x27 is not authorized to access this route") := by
  have hverify := (SaasAuth.generateTokens_roundtrip env uid t0 now).1 hfresh
  have hrole' : ¬ u.role ∈ roles := by simpa using hrole
  simp [SaasAuth.runRoleGatedRoute, SaasAuth.protect, hx, SaasAuth.verifyAccessTokenStr,
    hp, hverify, SaasAuth.authorize, SaasAuth.getUserById, hu, hrole, hrole']

/-- Witness for C6: the stored `viewer` identity presents a fresh, valid
access token to an admin-only route and is answered 403 without the handler
running. -/
theorem SaasAuth.roleGate_forbids_disallowed_role_witness :
    SaasAuth.runRoleGatedRoute SaasAuth.env0
        (fun s => if s = "tok" then some (SaasAuth.generateTokens SaasAuth.env0 0 "user-1").accessToken else none)
        5 SaasAuth.db0 ["admin"] (some "Bearer tok")
      = .response 403
          ("User role \x27viewer\x27 is not authorized to access this route") :=
  SaasAuth.roleGate_forbids_disallowed_role SaasAuth.env0
    (fun s => if s = "tok" then some (SaasAuth.generateTokens SaasAuth.env0 0 "user-1").accessToken else none)
    SaasAuth.db0 ["admin"] (some "Bearer tok") "tok" "user-1"
    { id := "user-1", email := "a@b.co", password := "hash1", name := "Ada",
      role := "viewer", isActive := true, lastLogin := none,
      createdAt := 0, updatedAt := 0 }
    0 5 (by decide) (by decide) (by decide) (by decide) (by decide)

/-- C1 (failing-input evaluation): a session established by the login page —
which stores the credentials of the login response body, a body that carries
no refresh token — has no refresh token in client storage, so the very first
401 on a protected call is rejected back to the caller with auth state
cleared and a redirect to the login surface, and the refresh endpoint is
never invoked, even when (as here) any refresh call would have succeeded.
This contradicts the claimed silent refresh-and-retry. -/
theorem SaasAuth.login_session_401_never_refreshes
    (refreshEndpoint : String → Except String SaasAuth.RefreshResponseData) :
    SaasAuth.onResponseError
        (SaasAuth.loginPageOnSubmit
          { SaasAuth.freshClient with locationPath := "/dashboard" }
          { userJson := "ada-user-json", accessToken := "acc-1" })
        { url := some "/dashboard/kpis", retry := false,
          authHeader := some "Bearer acc-1" }
        (some 401) refreshEndpoint
      = { outcome := .rejectOriginal,
          state := { accessToken := none, refreshToken := none, userJson := none,
                     locationPath := "/dashboard" },
          redirectedToLogin := true, refreshAttempted := false } := by
  rfl

/-- C7: the retried-at-most-once guarantee of the response interceptor.
First, any invocation of the error handler for a request already stamped
with the per-request `_retry` flag rejects the original error, touches no
storage, performs no redirect and never attempts a refresh — regardless of
the status and of what the refresh endpoint would do.  Second, whenever the
handler does re-issue a request, the re-issued request carries `_retry =
true`, so a second 401 on it falls into the first case: one retry per
original request, tracked per-request. -/
theorem SaasAuth.interceptor_retries_at_most_once :
    (∀ (st : SaasAuth.ClientState) (cfg : SaasAuth.RequestConfig) (status : Option Nat)
        (refreshEndpoint : String → Except String SaasAuth.RefreshResponseData),
      cfg.retry = true →
      SaasAuth.onResponseError st cfg status refreshEndpoint
        = { outcome := .rejectOriginal, state := st, redirectedToLogin := false,
            refreshAttempted := false }) ∧
    (∀ (st : SaasAuth.ClientState) (cfg : SaasAuth.RequestConfig) (status : Option Nat)
        (refreshEndpoint : String → Except String SaasAuth.RefreshResponseData)
        (cfg' : SaasAuth.RequestConfig),
      (SaasAuth.onResponseError st cfg status refreshEndpoint).outcome = .retried cfg' →
      cfg'.retry = true) := by
  constructor
  · intro st cfg status refreshEndpoint h
    simp [SaasAuth.onResponseError, h]
  · intro st cfg status refreshEndpoint cfg' h
    unfold SaasAuth.onResponseError at h
    by_cases hc : ((status == some 401) && !cfg.retry && !SaasAuth.isLoginEndpoint cfg) = true
    · rw [if_pos hc] at h
      cases hrt : st.refreshToken with
      | none => rw [hrt] at h; simp at h
      | some rt =>
          rw [hrt] at h
          cases hre : refreshEndpoint rt with
          | ok body =>
              simp [hre] at h
              rw [← h]
          | error e => simp [hre] at h
    · rw [if_neg hc] at h
      simp at h

/-- Witness for C7: the first clause applied to a request already stamped
`_retry` (a 401 on it is rejected outright), and the second clause applied
to a concrete run that did re-issue a request, whose re-issued config indeed
carries `_retry = true`. -/
theorem SaasAuth.interceptor_retries_at_most_once_witness :
    (SaasAuth.onResponseError
        { accessToken := some "a", refreshToken := some "r", userJson := some "u",
          locationPath := "/dashboard" }
        { url := some "/dashboard/kpis", retry := true, authHeader := some "Bearer a" }
        (some 401) (fun _ => .ok { accessToken := "a2", newRefreshToken := none })
      = { outcome := .rejectOriginal,
          state := { accessToken := some "a", refreshToken := some "r",
                     userJson := some "u", locationPath := "/dashboard" },
          redirectedToLogin := false, refreshAttempted := false }) ∧
    ({ url := some "/dashboard/kpis", retry := true,
       authHeader := some "Bearer a2" : SaasAuth.RequestConfig }.retry = true) :=
  ⟨SaasAuth.interceptor_retries_at_most_once.1
      { accessToken := some "a", refreshToken := some "r", userJson := some "u",
        locationPath := "/dashboard" }
      { url := some "/dashboard/kpis", retry := true, authHeader := some "Bearer a" }
      (some 401) (fun _ => .ok { accessToken := "a2", newRefreshToken := none }) rfl,
   SaasAuth.interceptor_retries_at_most_once.2
      { accessToken := some "a", refreshToken := some "r", userJson := some "u",
        locationPath := "/dashboard" }
      { url := some "/dashboard/kpis", retry := false, authHeader := some "Bearer a" }
      (some 401) (fun _ => .ok { accessToken := "a2", newRefreshToken := none })
      { url := some "/dashboard/kpis", retry := true, authHeader := some "Bearer a2" }
      (by decide)⟩

/-- Witness for C1 at a concrete refresh endpoint that would succeed. -/
theorem SaasAuth.login_session_401_never_refreshes_witness :
    SaasAuth.onResponseError
        (SaasAuth.loginPageOnSubmit
          { SaasAuth.freshClient with locationPath := "/dashboard" }
          { userJson := "ada-user-json", accessToken := "acc-1" })
        { url := some "/dashboard/kpis", retry := false,
          authHeader := some "Bearer acc-1" }
        (some 401) (fun _ => .ok { accessToken := "acc-2", newRefreshToken := none })
      = { outcome := .rejectOriginal,
          state := { accessToken := none, refreshToken := none, userJson := none,
                     locationPath := "/dashboard" },
          redirectedToLogin := true, refreshAttempted := false } :=
  SaasAuth.login_session_401_never_refreshes
    (fun _ => .ok { accessToken := "acc-2", newRefreshToken := none })

/-- C9: for every input and every behavior of the underlying store write,
the promise `logActivity` returns resolves — a failed audit write is never
propagated to the caller; instead the failure is only recorded on the local
console error log (and nothing is persisted). -/
theorem SaasAuth.logActivity_never_rejects
    (createActivityLog : SaasAuth.ActivityEntry → Except String SaasAuth.ActivityEntry)
    (args : SaasAuth.LogArgs) :
    (SaasAuth.logActivity createActivityLog args).promise = .ok () ∧
    (∀ err, createActivityLog (SaasAuth.activityEntryOf args) = .error err →
      SaasAuth.logActivity createActivityLog args
        = { promise := .ok (), written := none,
            consoleErrors := ["Failed to create activity log: " ++ err] }) := by
  constructor
  · unfold SaasAuth.logActivity
    split <;> rfl
  · intro err herr
    simp [SaasAuth.logActivity, herr]

/-- Witness for C9: a store write that always fails still yields a resolved
promise, with the failure kept on the local console log. -/
theorem SaasAuth.logActivity_never_rejects_witness :
    (SaasAuth.logActivity (fun _ => .error "db down")
        { userId := "user-1", action := "login" }).promise = .ok () ∧
    SaasAuth.logActivity (fun _ => .error "db down")
        { userId := "user-1", action := "login" }
      = { promise := .ok (), written := none,
          consoleErrors := ["Failed to create activity log: db down"] } :=
  ⟨(SaasAuth.logActivity_never_rejects (fun _ => .error "db down")
      { userId := "user-1", action := "login" }).1,
   (SaasAuth.logActivity_never_rejects (fun _ => .error "db down")
      { userId := "user-1", action := "login" }).2 "db down" rfl⟩

/-- C8 counterexample: a logout request served by the mounted
`POST /auth/logout` route completes with 200 — a successful logout — yet the
activity audit log is left empty: no `logout` security event is recorded for
it, refuting the claim that every logout records one. -/
theorem SaasAuth.logout_not_logged_counterexample :
    (SaasAuth.postAuthLogout SaasAuth.meta0 []).status = 200 ∧
    (SaasAuth.postAuthLogout SaasAuth.meta0 []).activityLog = [] := by
  constructor <;> rfl

/-- C8 as amended: the logout controller records a `logout` event attributed
to `req.user.userId` exactly when the request context already carries an
authenticated identity; since the logout route is mounted without the
`protect` middleware, `req.user` is never populated there, so every request
through the mounted route leaves the audit log unchanged (while still
responding 200 and clearing the refresh cookie). -/
theorem SaasAuth.logout_logging_requires_authenticated_user :
    (∀ (meta : SaasAuth.ReqMeta) (sink : List SaasAuth.ActivityEntry),
      SaasAuth.postAuthLogout meta sink
        = { status := 200, clearedRefreshCookie := true, activityLog := sink }) ∧
    (∀ (req : SaasAuth.LogoutReq) (sink : List SaasAuth.ActivityEntry)
        (u : SaasAuth.JwtPayload), req.user? = some u →
      (SaasAuth.logoutController req sink).activityLog
        = sink ++ [{ userId := u.userId, action := "logout", entityType := some "auth",
                     entityId := none, details := "",
                     ipAddress := some (SaasAuth.getClientIp req.meta),
                     userAgent := some (SaasAuth.getUserAgent req.meta) }]) := by
  constructor
  · intro meta sink
    rfl
  · intro req sink u hu
    simp [SaasAuth.logoutController, hu]

/-- Witness for C8's amended theorem: the unauthenticated mounted route leaves
the sink unchanged, and a directly-invoked controller with `req.user` set
appends the attributed `logout` entry. -/
theorem SaasAuth.logout_logging_requires_authenticated_user_witness :
    (SaasAuth.postAuthLogout SaasAuth.meta0 []
      = { status := 200, clearedRefreshCookie := true, activityLog := [] }) ∧
    ((SaasAuth.logoutController
        { user? := some { userId := "user-1", type? := none }, meta := SaasAuth.meta0 }
        []).activityLog
      = [{ userId := "user-1", action := "logout", entityType := some "auth",
           entityId := none, details := "",
           ipAddress := some (SaasAuth.getClientIp SaasAuth.meta0),
           userAgent := some (SaasAuth.getUserAgent SaasAuth.meta0) }]) :=
  ⟨SaasAuth.logout_logging_requires_authenticated_user.1 SaasAuth.meta0 [],
   SaasAuth.logout_logging_requires_authenticated_user.2
      { user? := some { userId := "user-1", type? := none }, meta := SaasAuth.meta0 }
      [] { userId := "user-1", type? := none } rfl⟩
